import Mathlib

/-!
# Verification of the ImageConverter photo-editing pipeline

A shallow embedding of the local image-adjustment pipeline, the per-batch
edit-session state handling, the ZIP packaging, the remote-call fallback
handling of `app.py`, and the credential checking of `simple_auth.py`.

Conventions of the embedding:

* A decoded raster image (PIL `Image`) is a structure `Img` holding its color
  mode, its dimensions, and its pixel rows.
* Calls into the external imaging library (PIL enhancers, Lanczos resampling,
  median filtering, rotation with canvas expansion, alpha flattening, JPEG
  encoding) are not this repository's code; they are taken as components of a
  `PILLib` record, and the theorems are proved for every such record.  A
  concrete record `trivLib` is used to evaluate statements on explicit inputs.
* Python float arithmetic on ratios and percentages is modelled by exact
  rational / natural arithmetic (`int(x * p / 100)` becomes natural floor
  division); comparisons against the neutral constants (`!= 1.0`, `== 100`,
  `== 0`) are exact in both worlds.
* Python exceptions (the `ZeroDivisionError` reachable in `crop_image`) are
  modelled with `Except String`.
-/

namespace ImageConverter

/-- A decoded in-memory image: PIL color mode (for example `"RGB"` or
`"RGBA"`), the dimensions reported by `image.size`, and the pixel grid as a
list of rows.  Pixel values are abstract byte-like naturals. -/
structure Img where
  mode : String
  width : Nat
  height : Nat
  rows : List (List Nat)
deriving DecidableEq, Repr

instance : Inhabited Img := ⟨⟨"RGB", 0, 0, []⟩⟩

/-- The operations `app.py` takes from the external imaging library (PIL).
Each field stands for one library primitive whose pixel-level behaviour the
repository does not define; theorems below hold for every implementation. -/
structure PILLib where
  enhBrightness : ℚ → Img → Img
  enhContrast : ℚ → Img → Img
  enhColor : ℚ → Img → Img
  enhSharpness : ℚ → Img → Img
  medianFilter3 : Img → Img
  resample : Img → Nat → Nat → List (List Nat)
  rotateExpand : Img → Int → Img
  flattenWhite : Img → Img
  convertRGB : Img → Img
  jpegEncode : Img → List Nat

/-- `convert_to_rgb` (app.py:137-147): flatten RGBA against white, convert
exotic modes to RGB, pass RGB and grayscale through unchanged. -/
def convert_to_rgb (lib : PILLib) (image : Img) : Img :=
  if image.mode = "RGBA" then lib.flattenWhite image
  else if image.mode ≠ "RGB" ∧ image.mode ≠ "L" then lib.convertRGB image
  else image

/-- `apply_basic_adjustments` (app.py:149-167): apply brightness, contrast,
saturation (PIL `Color`), sharpness, in that order, each only when the factor
differs from the neutral 1.0. -/
def apply_basic_adjustments (lib : PILLib) (image : Img)
    (brightness contrast saturation sharpness : ℚ) : Img :=
  let i1 := if brightness ≠ 1 then lib.enhBrightness brightness image else image
  let i2 := if contrast ≠ 1 then lib.enhContrast contrast i1 else i1
  let i3 := if saturation ≠ 1 then lib.enhColor saturation i2 else i2
  if sharpness ≠ 1 then lib.enhSharpness sharpness i3 else i3

/-- `apply_noise_reduction` (app.py:169-173): `strength` successive 3×3
median-filter passes. -/
def apply_noise_reduction (lib : PILLib) (image : Img) (strength : Nat) : Img :=
  (List.range strength).foldl (fun img _ => lib.medianFilter3 img) image

/-- PIL `image.crop((left, upper, right, lower))`: extract the sub-rectangle;
the resulting size is `(right - left, lower - upper)`. -/
def cropRect (image : Img) (left upper right lower : Nat) : Img :=
  { mode := image.mode
    width := right - left
    height := lower - upper
    rows := ((image.rows.drop upper).take (lower - upper)).map
      (fun r => (r.drop left).take (right - left)) }

/-- `crop_image` (app.py:175-193): center-crop to a target aspect.  The
`None` sentinel is the identity.  `target_ratio = ratio[0] / ratio[1]` and
`current_ratio = width / height` raise `ZeroDivisionError` in Python when the
denominator is zero (including the `width / target_ratio` division in the
else-branch when the target is zero); those divisions are modelled as
`Except` errors, and the float comparisons and truncations as exact
cross-multiplied naturals (`int(height * target_ratio)` is
`height * rw / rh` by floor division). -/
def crop_image (image : Img) (ratioArg : Option (Nat × Nat)) : Except String Img :=
  match ratioArg with
  | none => Except.ok image
  | some (rw, rh) =>
    if rh = 0 then Except.error "ZeroDivisionError"
    else if image.height = 0 then Except.error "ZeroDivisionError"
    else if image.height * rw < image.width * rh then
      let new_width := image.height * rw / rh
      let left := (image.width - new_width) / 2
      Except.ok (cropRect image left 0 (left + new_width) image.height)
    else if rw = 0 then Except.error "ZeroDivisionError"
    else
      let new_height := image.width * rh / rw
      let top := (image.height - new_height) / 2
      Except.ok (cropRect image 0 top image.width (top + new_height))

/-- `resize_image` (app.py:195-203): exactly 100 percent returns the very
same object; otherwise both dimensions are scaled by `percent/100` (floor)
and the content is Lanczos-resampled by the library. -/
def resize_image (lib : PILLib) (image : Img) (scale_percent : Nat) : Img :=
  if scale_percent = 100 then image
  else
    let new_width := image.width * scale_percent / 100
    let new_height := image.height * scale_percent / 100
    { mode := image.mode, width := new_width, height := new_height
      rows := lib.resample image new_width new_height }

/-- `rotate_image` (app.py:205-209): zero angle returns the very same object;
otherwise the library rotates by the negated angle with canvas expansion and
white fill. -/
def rotate_image (lib : PILLib) (image : Img) (angle : Int) : Img :=
  if angle = 0 then image else lib.rotateExpand image (-angle)

/-- `upscale_image` (app.py:219-223): multiply both dimensions by `factor`
and resample; note there is no `factor = 1` shortcut inside this function
(the call sites guard with `factor > 1`). -/
def upscale_image (lib : PILLib) (image : Img) (factor : Nat) : Img :=
  { mode := image.mode, width := image.width * factor
    height := image.height * factor
    rows := lib.resample image (image.width * factor) (image.height * factor) }

/-- The slider/widget parameters of the Upload & Edit tab.  `cropPreset` is
the looked-up `CROP_PRESETS` value (`none` for the "Original" preset). -/
structure Params where
  brightness : ℚ
  contrast : ℚ
  saturation : ℚ
  sharpness : ℚ
  cropPreset : Option (Nat × Nat)
  rotateAngle : Int
  resizePercent : Nat
  noiseStrength : Nat
  upscaleFactor : Nat
deriving DecidableEq, Repr

/-- The all-neutral parameter set: factors 1.0, "Original" crop, 0°, 100 %,
0 denoise passes, upscale 1. -/
def neutralParams : Params :=
  { brightness := 1, contrast := 1, saturation := 1, sharpness := 1
    cropPreset := none, rotateAngle := 0, resizePercent := 100
    noiseStrength := 0, upscaleFactor := 1 }

/-- The crop/rotate/resize step as the Preview/Apply Transform handlers run
it (app.py:764-798): crop only when the preset is not "Original", rotate only
when the angle is nonzero, resize only when the percentage is not 100. -/
def applyTransformStep (lib : PILLib) (image : Img) (p : Params) :
    Except String Img :=
  match (match p.cropPreset with
         | none => Except.ok image
         | some r => crop_image image (some r)) with
  | Except.error e => Except.error e
  | Except.ok t1 =>
    let t2 := if p.rotateAngle ≠ 0 then rotate_image lib t1 p.rotateAngle else t1
    Except.ok (if p.resizePercent ≠ 100 then resize_image lib t2 p.resizePercent else t2)

/-- The denoise/upscale step as the Preview/Apply Enhancement handlers run it
(app.py:811-834): denoise only when the strength is positive, upscale only
when the factor exceeds 1. -/
def applyEnhancementStep (lib : PILLib) (image : Img) (p : Params) : Img :=
  let t1 := if p.noiseStrength > 0 then apply_noise_reduction lib image p.noiseStrength else image
  if p.upscaleFactor > 1 then upscale_image lib t1 p.upscaleFactor else t1

/-- The full adjustment chain a preview or commit runs over one buffer: basic
adjustments, then the transform step, then the enhancement step, with each
panel's guards exactly as in the tab-1 handlers. -/
def commitChain (lib : PILLib) (p : Params) (image : Img) : Except String Img :=
  let t1 := apply_basic_adjustments lib image p.brightness p.contrast p.saturation p.sharpness
  match applyTransformStep lib t1 p with
  | Except.error e => Except.error e
  | Except.ok t2 => Except.ok (applyEnhancementStep lib t2 p)

/-- The per-batch session state of tab 1: the three parallel image lists kept
in `st.session_state` (`original_images`, `working_images`,
`edited_images`). -/
structure Session where
  originals : List Img
  workings : List Img
  editeds : List Img
deriving DecidableEq, Repr

/-- Initialization on upload (app.py:680-684): originals are the decoded
RGB-converted images, and the edited and working lists are per-image
copies of them. -/
def loadSession (decoded : List Img) : Session :=
  { originals := decoded, workings := decoded, editeds := decoded }

/-- The "Save Adjustments" handler (app.py:734-745): recompute the basic
adjustments from `edited_images[idx]` and store the result in both
`working_images[idx]` and `edited_images[idx]`. -/
def saveAdjustments (lib : PILLib) (s : Session) (idx : Nat)
    (brightness contrast saturation sharpness : ℚ) : Session :=
  let temp := apply_basic_adjustments lib (s.editeds.getD idx default)
    brightness contrast saturation sharpness
  { s with workings := s.workings.set idx temp, editeds := s.editeds.set idx temp }

/-- The "Reset to Original" handler (app.py:747-751): both
`working_images[idx]` and `edited_images[idx]` become copies of
`original_images[idx]`. -/
def resetToOriginal (s : Session) (idx : Nat) : Session :=
  let orig := s.originals.getD idx default
  { s with workings := s.workings.set idx orig, editeds := s.editeds.set idx orig }

/-- The "Apply Transform" handler (app.py:781-799): run the crop/rotate/
resize step on `working_images[idx]` and commit the result to both lists.  A
Python exception inside the step (the ZeroDivisionError modelled in
`crop_image`) propagates before any assignment, leaving the state
unchanged. -/
def applyTransform (lib : PILLib) (s : Session) (idx : Nat) (p : Params) : Session :=
  match applyTransformStep lib (s.workings.getD idx default) p with
  | Except.error _ => s
  | Except.ok temp =>
    { s with workings := s.workings.set idx temp, editeds := s.editeds.set idx temp }

/-- The "Apply Enhancement" handler (app.py:822-834): run the denoise/upscale
step on `working_images[idx]` and commit the result to both lists. -/
def applyEnhancement (lib : PILLib) (s : Session) (idx : Nat) (p : Params) : Session :=
  let temp := applyEnhancementStep lib (s.workings.getD idx default) p
  { s with workings := s.workings.set idx temp, editeds := s.editeds.set idx temp }

/-- One iteration of the "Apply Current Image Settings to All Images" loop
(app.py:841-848): skip the selected index; otherwise apply the four
basic-adjustment factors to photo `i`'s `working_images` entry and store the
result in both lists. -/
def applyToAllStep (lib : PILLib) (selectedIdx : Nat)
    (brightness contrast saturation sharpness : ℚ) (st : Session) (i : Nat) : Session :=
  if i ≠ selectedIdx then
    let edited := apply_basic_adjustments lib (st.workings.getD i default)
      brightness contrast saturation sharpness
    { st with workings := st.workings.set i edited,
              editeds := st.editeds.set i edited }
  else st

/-- The "Apply Current Image Settings to All Images" handler
(app.py:839-850): run the loop body over every index of `original_images`. -/
def applyToAll (lib : PILLib) (s : Session) (selectedIdx : Nat)
    (brightness contrast saturation sharpness : ℚ) : Session :=
  (List.range s.originals.length).foldl
    (applyToAllStep lib selectedIdx brightness contrast saturation sharpness) s

/-- The observable outcome of one blocking call to the remote generation
collaborator: inline image bytes in the response, a response without inline
image data, or an exception classified by the signatures the handlers test
for (`'429'`/`'quota'`, `'404'`/`'not found'`, anything else). -/
inductive RemoteOutcome where
  | image (img : Img)
  | noImage
  | errQuota
  | errNotFound
  | errGeneric (msg : String)
deriving DecidableEq, Repr

/-- Whether the outcome is a failure (no usable inline image). -/
def RemoteOutcome.isFailure : RemoteOutcome → Bool
  | RemoteOutcome.image _ => false
  | _ => true

/-- The user-facing messages the two generation wrappers surface through
`st.error` / `st.warning`. -/
inductive Warn where
  | apiKeyMissing
  | quotaExceeded
  | modelNotFound
  | genericError (msg : String)
  | noImageReturningOriginal
  | cloneNoImage
  | cloneError (msg : String)
deriving DecidableEq, Repr

/-- `generate_image_variation` (app.py:335-507), reduced to its result and
message flow: with no API key it returns `None`; a response with inline image
data is decoded and RGB-converted; a response without one surfaces a warning
and returns the input image; an exception is classified into quota /
not-found / generic messages and the input image is returned.  The prompt
assembly does not affect which branch is taken. -/
def generate_image_variation (lib : PILLib) (apiKeyPresent : Bool)
    (outcome : RemoteOutcome) (image : Img) : Option Img × List Warn :=
  if ¬ apiKeyPresent then (none, [Warn.apiKeyMissing])
  else
    match outcome with
    | RemoteOutcome.image g => (some (convert_to_rgb lib g), [])
    | RemoteOutcome.noImage => (some image, [Warn.noImageReturningOriginal])
    | RemoteOutcome.errQuota => (some image, [Warn.quotaExceeded])
    | RemoteOutcome.errNotFound => (some image, [Warn.modelNotFound])
    | RemoteOutcome.errGeneric m => (some image, [Warn.genericError m])

/-- `generate_model_clone` (app.py:225-333), reduced to its result and
message flow: with no API key it returns `None`; a response with inline image
data is decoded and RGB-converted; a response without one surfaces an error
and returns `None`; every exception surfaces a clone-error message and
returns `None`. -/
def generate_model_clone (lib : PILLib) (apiKeyPresent : Bool)
    (outcome : RemoteOutcome) (_input_image _model_photo : Img) :
    Option Img × List Warn :=
  if ¬ apiKeyPresent then (none, [Warn.apiKeyMissing])
  else
    match outcome with
    | RemoteOutcome.image g => (some (convert_to_rgb lib g), [])
    | RemoteOutcome.noImage => (none, [Warn.cloneNoImage])
    | RemoteOutcome.errQuota => (none, [Warn.cloneError "429"])
    | RemoteOutcome.errNotFound => (none, [Warn.cloneError "404"])
    | RemoteOutcome.errGeneric m => (none, [Warn.cloneError m])

/-- Python's `str.replace` with a single-character pattern: substitute every
occurrence of `ch` by `repl`. -/
def replaceChar (ch repl : Char) (s : String) : String :=
  String.mk (s.data.map (fun c => if c = ch then repl else c))

/-- The filename sanitization of `create_zip_file` (app.py:612):
`name.replace(' ', '_').replace('/', '_')`. -/
def sanitizeName (name : String) : String :=
  replaceChar '/' '_' (replaceChar ' ' '_' name)

/-- `create_zip_file` (app.py:598-616), with the archive modelled as its
ordered entry list: each input pair contributes one entry whose name is the
sanitized input name with a `.jpg` suffix and whose data is the JPEG encoding
of the RGB-converted image.  Python dicts iterate in insertion order, so the
mapping is a list of pairs. -/
def create_zip_file (lib : PILLib) (images_dict : List (String × Img)) :
    List (String × List Nat) :=
  images_dict.map (fun entry =>
    (sanitizeName entry.1 ++ ".jpg", lib.jpegEncode (convert_to_rgb lib entry.2)))

/-- One stored credential record: the SHA-256 password hash and the optional
expiry timestamp.  Timestamps (ISO strings compared through `datetime`) are
modelled as integers with the same order. -/
structure UserRec where
  password : String
  expiry : Option Int
deriving DecidableEq, Repr

/-- `SimpleAuthenticator.verify_credentials` (simple_auth.py:75-93).  The
username is looked up; a record whose expiry is set and strictly earlier than
the current time is rejected with the expiry message before the password is
ever hashed; otherwise the SHA-256 hash of the supplied password (the hash
function is passed in, as the repository takes it from `hashlib`) is compared
with the stored hash. -/
def verify_credentials (hash : String → String)
    (credentials : List (String × UserRec)) (now : Int)
    (username password : String) : Bool × String :=
  match credentials.lookup username with
  | none => (false, "Invalid username or password")
  | some user_data =>
    if (match user_data.expiry with
        | some e => decide (e < now)
        | none => false) then
      (false, "Account has expired. Please contact support.")
    else if user_data.password = hash password then (true, "Success")
    else (false, "Invalid username or password")

section ConcreteInstances

/-- A byte-range clamp, used by the concrete stand-in library. -/
def clampByte (n : Int) : Nat := (max 0 (min 255 n)).toNat

/-- A concrete pixel model of PIL's brightness enhancer (`enhance(f)` blends
the image with black, scaling every channel by `f` and clamping to the byte
range).  Used only to evaluate the universally-quantified theorems on
explicit inputs. -/
def pixBrightness (f : ℚ) (image : Img) : Img :=
  { image with rows := image.rows.map (List.map (fun (p : Nat) => clampByte (round (f * (p : ℚ))))) }

/-- A concrete `PILLib` instance for evaluating statements on explicit
inputs: brightness scales pixels, resampling produces a correctly-sized zero
grid, and the remaining primitives are simple total functions. -/
def trivLib : PILLib :=
  { enhBrightness := pixBrightness
    enhContrast := fun _ img => img
    enhColor := fun _ img => img
    enhSharpness := fun _ img => img
    medianFilter3 := fun img => img
    resample := fun _ nw nh => List.replicate nh (List.replicate nw 0)
    rotateExpand := fun img _ => img
    flattenWhite := fun img => { img with mode := "RGB" }
    convertRGB := fun img => { img with mode := "RGB" }
    jpegEncode := fun img => img.rows.flatten }

end ConcreteInstances

section ConcreteImages

/-- A concrete 3×3 image with odd dimensions. -/
def cimg3 : Img := ⟨"RGB", 3, 3, [[1, 2, 3], [4, 5, 6], [7, 8, 9]]⟩

/-- A concrete 4×2 image. -/
def cimg42 : Img := ⟨"RGB", 4, 2, [[1, 2, 3, 4], [5, 6, 7, 8]]⟩

/-- A concrete 100×1 image, wide enough that a tall crop ratio degenerates. -/
def cimgWide : Img := ⟨"RGB", 100, 1, [List.replicate 100 7]⟩

/-- A concrete 2×2 image (photo 0 of the two-photo batches). -/
def cimgA : Img := ⟨"RGB", 2, 2, [[10, 10], [10, 10]]⟩

/-- A concrete 2×2 image (photo 1 of the two-photo batches). -/
def cimgB : Img := ⟨"RGB", 2, 2, [[20, 20], [20, 20]]⟩

/-- A concrete 2×2 image standing for photo 1 after an earlier edit. -/
def cimgBEdited : Img := ⟨"RGB", 2, 2, [[99, 99], [99, 99]]⟩

/-- A freshly loaded two-photo session. -/
def sessTwo : Session := loadSession [cimgA, cimgB]

/-- A two-photo session in which photo 1's working buffer was edited earlier
and no longer matches its original. -/
def sessEdited : Session :=
  { originals := [cimgA, cimgB], workings := [cimgA, cimgBEdited],
    editeds := [cimgA, cimgBEdited] }

/-- A concrete parameter set with brightness 2.0 and resize 50, the rest
neutral. -/
def paramsC2 : Params :=
  { brightness := 2, contrast := 1, saturation := 1, sharpness := 1
    cropPreset := none, rotateAngle := 0, resizePercent := 50
    noiseStrength := 0, upscaleFactor := 1 }

end ConcreteImages

/-- What the crop-to-aspect claim asserts of an output buffer `out` for a
target aspect `rNum : rDen`: the output fits inside the input, its aspect
agrees with the target up to the rounding of one side to a whole pixel
(`|out.width/out.height − rNum/rDen|` below one pixel's worth, stated by
cross-multiplication), and the cropped side is taken centrally — the crop is
a contiguous rectangle spanning the kept side in full, whose two margins on
the cropped side differ by at most one pixel. -/
def cropSpec (image : Img) (rNum rDen : Nat) (out : Img) : Prop :=
  out.width ≤ image.width ∧ out.height ≤ image.height ∧
  out.width * rDen < out.height * rNum + rNum ∧
  out.height * rNum < out.width * rDen + rDen ∧
  (image.height * rNum < image.width * rDen →
    out.height = image.height ∧
    ∃ l, out = cropRect image l 0 (l + out.width) image.height ∧
      l ≤ image.width - (l + out.width) ∧
      image.width - (l + out.width) ≤ l + 1) ∧
  (¬ image.height * rNum < image.width * rDen →
    out.width = image.width ∧
    ∃ tp, out = cropRect image 0 tp image.width (tp + out.height) ∧
      tp ≤ image.height - (tp + out.height) ∧
      image.height - (tp + out.height) ≤ tp + 1)

/-- **C1.** With all-neutral parameters (brightness = contrast = saturation =
sharpness = 1.0, crop = none, rotate = 0, resize = 100, denoise = 0,
upscale = 1) the full adjustment chain run by the preview/commit handlers
returns the input buffer unchanged, for every imaging-library implementation
and every input buffer: each neutral sub-operation is skipped rather than
applied. -/
theorem neutral_chain_is_identity (lib : PILLib) (image : Img) :
    commitChain lib neutralParams image = Except.ok image := by
  simp [commitChain, neutralParams, apply_basic_adjustments, applyTransformStep,
    applyEnhancementStep, rotate_image, resize_image]

/-- **C4 (amended).** `resize(100)` returns the buffer unchanged, and the
50 %-then-200 % round trip yields dimensions `2·⌊w/2⌋ × 2·⌊h/2⌋` — the
original dimensions exactly when both are even, one pixel short on each odd
dimension (Python's `int(width * 50 / 100)` truncates). -/
theorem resize_identity_and_roundtrip_dims (lib : PILLib) (image : Img) :
    resize_image lib image 100 = image ∧
    (resize_image lib (resize_image lib image 50) 200).width = 2 * (image.width / 2) ∧
    (resize_image lib (resize_image lib image 50) 200).height = 2 * (image.height / 2) := by
  refine ⟨rfl, ?_, ?_⟩ <;>
    simp only [resize_image, if_neg (by decide : ¬ (50 : Nat) = 100),
      if_neg (by decide : ¬ (200 : Nat) = 100)] <;>
    omega

/-- **C4 (counterexample).** On a 3×3 buffer the 50 %-then-200 % round trip
does not restore the original dimensions: the width comes back as 2, not 3. -/
theorem resize_roundtrip_fails_on_odd_dims :
    (resize_image trivLib (resize_image trivLib cimg3 50) 200).width ≠ cimg3.width ∧
    (resize_image trivLib (resize_image trivLib cimg3 50) 200).width = 2 := by
  constructor <;> decide

/-- **C9.** Packing a mapping of names to buffers produces one archive entry
per input pair, in order, each named with the sanitized name (spaces and
slashes replaced by underscores) plus a `.jpg` suffix; an empty input mapping
yields an empty archive rather than an error, and `"My Photo"` is packed as
`My_Photo.jpg`. -/
theorem zip_entries_per_input (lib : PILLib) (images_dict : List (String × Img)) :
    (create_zip_file lib images_dict).map Prod.fst =
      images_dict.map (fun entry => sanitizeName entry.1 ++ ".jpg") ∧
    (create_zip_file lib images_dict).length = images_dict.length ∧
    create_zip_file lib [] = [] ∧
    sanitizeName "My Photo" ++ ".jpg" = "My_Photo.jpg" := by
  refine ⟨?_, ?_, rfl, by decide⟩ <;> simp [create_zip_file]

/-- **C7 (counterexample).** Not every failing remote style-generation call
degrades to the unmodified input buffer: when the model-clone call returns no
image, `generate_model_clone` surfaces an error and returns `None` (nothing),
not the input photo. -/
theorem clone_failure_returns_none :
    (generate_model_clone trivLib true RemoteOutcome.noImage cimg3 cimg3).1 ≠ some cimg3 ∧
    (generate_model_clone trivLib true RemoteOutcome.noImage cimg3 cimg3).1 = none := by
  constructor <;> decide

/-- **C7 (amended).** For every failing remote outcome (quota, model not
found, generic exception, or a response with no inline image),
`generate_image_variation` returns the unmodified input buffer together with
a surfaced warning and never raises; `generate_model_clone` also never
raises and always surfaces a message, but returns `None` instead of the
input buffer. -/
theorem remote_failure_degrades (lib : PILLib) (outcome : RemoteOutcome)
    (image m1 m2 : Img) (hfail : outcome.isFailure = true) :
    (generate_image_variation lib true outcome image).1 = some image ∧
    (generate_image_variation lib true outcome image).2 ≠ [] ∧
    (generate_model_clone lib true outcome m1 m2).1 = none ∧
    (generate_model_clone lib true outcome m1 m2).2 ≠ [] := by
  cases outcome <;> simp_all [generate_image_variation, generate_model_clone,
    RemoteOutcome.isFailure]

/-- Witness for `remote_failure_degrades` at a concrete failing outcome. -/
theorem remote_failure_degrades_witness :
    RemoteOutcome.errQuota.isFailure = true ∧
    ((generate_image_variation trivLib true RemoteOutcome.errQuota cimg3).1 = some cimg3 ∧
     (generate_image_variation trivLib true RemoteOutcome.errQuota cimg3).2 ≠ [] ∧
     (generate_model_clone trivLib true RemoteOutcome.errQuota cimg3 cimg42).1 = none ∧
     (generate_model_clone trivLib true RemoteOutcome.errQuota cimg3 cimg42).2 ≠ []) :=
  ⟨by decide, remote_failure_degrades trivLib RemoteOutcome.errQuota cimg3 cimg3 cimg42 (by decide)⟩

/-- **C8.** For a stored record with expiry timestamp `T`: login is rejected
with the expiry message whenever the current time is strictly past `T`;
with the correct password (matching stored hash) it succeeds whenever the
current time is at or before `T`; and a record with no expiry always passes
the expiry check, succeeding exactly on hash equality. -/
theorem credential_expiry_boundary (hash : String → String)
    (credentials : List (String × UserRec)) (now : Int)
    (username password : String) (u : UserRec)
    (hu : credentials.lookup username = some u) :
    (∀ e, u.expiry = some e → e < now →
      verify_credentials hash credentials now username password =
        (false, "Account has expired. Please contact support.")) ∧
    (∀ e, u.expiry = some e → now ≤ e → u.password = hash password →
      verify_credentials hash credentials now username password = (true, "Success")) ∧
    (u.expiry = none → u.password = hash password →
      verify_credentials hash credentials now username password = (true, "Success")) := by
  refine ⟨fun e he hlt => ?_, fun e he hle hpw => ?_, fun he hpw => ?_⟩ <;>
    simp_all [verify_credentials]

/-- Witness for `credential_expiry_boundary`: a record expiring at time 10 is
rejected at time 20 and accepted at time 5 with the correct password, and a
no-expiry record is accepted. -/
theorem credential_expiry_boundary_witness :
    verify_credentials id [("alice", ⟨"pw", some 10⟩)] 20 "alice" "pw" =
      (false, "Account has expired. Please contact support.") ∧
    verify_credentials id [("alice", ⟨"pw", some 10⟩)] 5 "alice" "pw" = (true, "Success") ∧
    verify_credentials id [("bob", ⟨"pw", none⟩)] 5 "bob" "pw" = (true, "Success") :=
  ⟨(credential_expiry_boundary id [("alice", ⟨"pw", some 10⟩)] 20 "alice" "pw"
      ⟨"pw", some 10⟩ rfl).1 10 rfl (by decide),
   (credential_expiry_boundary id [("alice", ⟨"pw", some 10⟩)] 5 "alice" "pw"
      ⟨"pw", some 10⟩ rfl).2.1 10 rfl (by decide) rfl,
   (credential_expiry_boundary id [("bob", ⟨"pw", none⟩)] 5 "bob" "pw"
      ⟨"pw", none⟩ rfl).2.2 rfl rfl⟩

/-- **C10.** `verify_credentials` evaluates expiry before the password: for
an existing record whose expiry is strictly in the past, every supplied
password — including the correct one — yields the account-expired failure;
and for a non-expired record the boolean result is exactly hash equality. -/
theorem expiry_checked_before_password (hash : String → String)
    (credentials : List (String × UserRec)) (now : Int)
    (username password : String) (u : UserRec)
    (hu : credentials.lookup username = some u) :
    (∀ e, u.expiry = some e → e < now →
      verify_credentials hash credentials now username password =
        (false, "Account has expired. Please contact support.")) ∧
    ((match u.expiry with
      | some e => now ≤ e
      | none => True) →
      ((verify_credentials hash credentials now username password).1 = true ↔
        u.password = hash password)) := by
  constructor
  · intro e he hlt
    simp_all [verify_credentials]
  · intro hne
    rcases hexp : u.expiry with _ | e
    · by_cases hpw : u.password = hash password <;> simp_all [verify_credentials]
    · rw [hexp] at hne
      by_cases hpw : u.password = hash password <;>
        simp_all [verify_credentials] <;>
        simp [if_neg (not_lt.mpr hne)]

/-- Witness for `expiry_checked_before_password`: the expired record rejects
even its own correct password, and the live record's result tracks hash
equality. -/
theorem expiry_checked_before_password_witness :
    verify_credentials id [("carol", ⟨"secret", some 0⟩)] 100 "carol" "secret" =
      (false, "Account has expired. Please contact support.") ∧
    ((verify_credentials id [("dave", ⟨"secret", some 200⟩)] 100 "dave" "nope").1 = true ↔
      "secret" = id "nope") :=
  ⟨(expiry_checked_before_password id [("carol", ⟨"secret", some 0⟩)] 100 "carol" "secret"
      ⟨"secret", some 0⟩ rfl).1 0 rfl (by decide),
   (expiry_checked_before_password id [("dave", ⟨"secret", some 200⟩)] 100 "dave" "nope"
      ⟨"secret", some 200⟩ rfl).2 (by decide)⟩

section SessionLemmas

/-- Each apply-to-all loop iteration leaves the `original_images` list
untouched. -/
lemma applyToAllStep_originals (lib : PILLib) (selectedIdx : Nat)
    (b c sat sh : ℚ) (st : Session) (i : Nat) :
    (applyToAllStep lib selectedIdx b c sat sh st i).originals = st.originals := by
  unfold applyToAllStep; split <;> rfl

/-- Folding the apply-to-all loop over any index list leaves
`original_images` untouched. -/
lemma foldl_applyToAllStep_originals (lib : PILLib) (selectedIdx : Nat)
    (b c sat sh : ℚ) :
    ∀ (l : List Nat) (s : Session),
      (l.foldl (applyToAllStep lib selectedIdx b c sat sh) s).originals = s.originals := by
  intro l
  induction l with
  | nil => intro s; rfl
  | cons a t ih =>
    intro s
    rw [List.foldl_cons, ih, applyToAllStep_originals]

/-- `applyToAll` leaves every original buffer untouched. -/
lemma applyToAll_originals (lib : PILLib) (s : Session) (selectedIdx : Nat)
    (b c sat sh : ℚ) :
    (applyToAll lib s selectedIdx b c sat sh).originals = s.originals :=
  foldl_applyToAllStep_originals lib selectedIdx b c sat sh _ s

/-- Characterization of the apply-to-all loop after processing the indices
`0 … n-1`: the working list keeps its length, the selected and unprocessed
entries are untouched, and every other entry `k` holds the basic adjustments
of the *initial* entry `k` — each photo is computed from its own buffer
alone. -/
lemma foldl_applyToAllStep_workings (lib : PILLib) (selectedIdx : Nat)
    (b c sat sh : ℚ) (s : Session) :
    ∀ n, n ≤ s.workings.length →
      (((List.range n).foldl (applyToAllStep lib selectedIdx b c sat sh) s).workings.length
          = s.workings.length) ∧
      ∀ k, ((List.range n).foldl (applyToAllStep lib selectedIdx b c sat sh) s).workings[k]? =
        if k < n ∧ k ≠ selectedIdx then
          (s.workings[k]?).map (fun w => apply_basic_adjustments lib w b c sat sh)
        else s.workings[k]? := by
  intro n
  induction n with
  | zero =>
    intro _
    exact ⟨rfl, fun k => by simp⟩
  | succ m ih =>
    intro hn
    obtain ⟨hlen, hget⟩ := ih (Nat.le_of_succ_le hn)
    rw [List.range_succ, List.foldl_append, List.foldl_cons, List.foldl_nil]
    set t := (List.range m).foldl (applyToAllStep lib selectedIdx b c sat sh) s with ht
    by_cases hsel : m = selectedIdx
    · have hstep : applyToAllStep lib selectedIdx b c sat sh t m = t := by
        unfold applyToAllStep
        rw [if_neg (by simp [hsel])]
      rw [hstep]
      refine ⟨hlen, fun k => ?_⟩
      rw [hget k]
      have hiff : (k < m + 1 ∧ k ≠ selectedIdx) ↔ (k < m ∧ k ≠ selectedIdx) := by omega
      by_cases hk : k < m ∧ k ≠ selectedIdx
      · rw [if_pos hk, if_pos (hiff.mpr hk)]
      · rw [if_neg hk, if_neg (fun h => hk (hiff.mp h))]
    · have hmlt : m < s.workings.length := hn
      have hmget : t.workings[m]? = s.workings[m]? := by
        rw [hget m, if_neg (by omega)]
      rcases hw : s.workings[m]? with _ | w
      · exact absurd (List.getElem?_eq_none_iff.mp hw) (by omega)
      · have hgd : t.workings.getD m default = w := by
          rw [List.getD_eq_getElem?_getD, hmget, hw]; rfl
        have hstep : applyToAllStep lib selectedIdx b c sat sh t m =
            { t with
              workings := t.workings.set m (apply_basic_adjustments lib w b c sat sh),
              editeds := t.editeds.set m (apply_basic_adjustments lib w b c sat sh) } := by
          unfold applyToAllStep
          rw [if_pos hsel, hgd]
        rw [hstep]
        refine ⟨by rw [List.length_set]; exact hlen, fun k => ?_⟩
        by_cases hk : k = m
        · subst hk
          rw [List.getElem?_set_self (by rw [hlen]; exact hmlt),
            if_pos ⟨Nat.lt_succ_self _, hsel⟩, hw]
          rfl
        · rw [List.getElem?_set_ne (fun h => hk h.symm), hget k]
          have hiff : (k < m + 1 ∧ k ≠ selectedIdx) ↔ (k < m ∧ k ≠ selectedIdx) := by omega
          by_cases hk2 : k < m ∧ k ≠ selectedIdx
          · rw [if_pos hk2, if_pos (hiff.mpr hk2)]
          · rw [if_neg hk2, if_neg (fun h => hk2 (hiff.mp h))]

end SessionLemmas

/-- **C2 (counterexample).** Apply-to-all does not reproduce an independent
commit of the full parameter set on each photo's *original* content: with a
previously edited photo 1 and parameters including brightness 2.0 and
resize 50, the batch loop brightens photo 1's current working buffer, while
committing the parameters on photo 1's original yields a different (resized)
buffer. -/
theorem applyToAll_differs_from_commit_of_original :
    (applyToAll trivLib sessEdited 0 2 1 1 1).workings[1]? ≠
      (commitChain trivLib paramsC2 (sessEdited.originals.getD 1 default)).toOption := by
  decide

/-- **C2 (amended).** Apply-to-all leaves every original buffer untouched
and produces, for every index `k` other than the selected one, a working
buffer equal to the four basic-adjustment factors applied to photo `k`'s own
previous *working* buffer (computed from photo `k`'s buffer alone — no
cross-photo leakage); the selected index and out-of-range indices are left
unchanged.  The crop/rotate/resize/denoise/upscale parameters are not part
of the batch loop. -/
theorem applyToAll_per_photo (lib : PILLib) (s : Session) (selectedIdx : Nat)
    (b c sat sh : ℚ) (hlen : s.workings.length = s.originals.length) :
    (applyToAll lib s selectedIdx b c sat sh).originals = s.originals ∧
    (∀ k, k < s.originals.length → k ≠ selectedIdx →
      (applyToAll lib s selectedIdx b c sat sh).workings[k]? =
        (s.workings[k]?).map (fun w => apply_basic_adjustments lib w b c sat sh)) ∧
    (∀ k, k = selectedIdx ∨ s.originals.length ≤ k →
      (applyToAll lib s selectedIdx b c sat sh).workings[k]? = s.workings[k]?) := by
  have h := foldl_applyToAllStep_workings lib selectedIdx b c sat sh s
    s.originals.length (le_of_eq hlen.symm)
  refine ⟨applyToAll_originals lib s selectedIdx b c sat sh, fun k hk hks => ?_,
    fun k hk => ?_⟩
  · rw [applyToAll, h.2 k, if_pos ⟨hk, hks⟩]
  · rw [applyToAll, h.2 k, if_neg (by omega)]

/-- Witness for `applyToAll_per_photo` on a concrete two-photo batch with
photo 0 selected: photo 1's working buffer becomes the basic adjustments of
its own previous working buffer. -/
theorem applyToAll_per_photo_witness :
    (applyToAll trivLib sessTwo 0 2 1 1 1).workings[1]? =
      (sessTwo.workings[1]?).map (fun w => apply_basic_adjustments trivLib w 2 1 1 1) :=
  (applyToAll_per_photo trivLib sessTwo 0 2 1 1 1 rfl).2.1 1 (by decide) (by decide)

/-- **C3.** No session operation reassigns an original buffer: save, apply
transform, apply enhancement, apply-to-all and reset all leave
`original_images` unchanged; and reset-to-original sets the working buffer at
the given index to (a copy of) the original at that index. -/
theorem originals_immutable_and_reset (lib : PILLib) (s : Session) (idx : Nat)
    (p : Params) (selectedIdx : Nat) (b c sat sh : ℚ)
    (h1 : idx < s.originals.length) (h2 : s.workings.length = s.originals.length) :
    (saveAdjustments lib s idx b c sat sh).originals = s.originals ∧
    (applyTransform lib s idx p).originals = s.originals ∧
    (applyEnhancement lib s idx p).originals = s.originals ∧
    (applyToAll lib s selectedIdx b c sat sh).originals = s.originals ∧
    (resetToOriginal s idx).originals = s.originals ∧
    (resetToOriginal s idx).workings[idx]? = s.originals[idx]? := by
  refine ⟨rfl, ?_, rfl, applyToAll_originals lib s selectedIdx b c sat sh, rfl, ?_⟩
  · unfold applyTransform
    split <;> rfl
  · unfold resetToOriginal
    rw [List.getElem?_set_self (by omega), List.getElem?_eq_getElem h1,
      List.getD_eq_getElem?_getD, List.getElem?_eq_getElem h1]
    rfl

/-- Witness for `originals_immutable_and_reset` on the concrete two-photo
session at index 0. -/
theorem originals_immutable_and_reset_witness :
    (saveAdjustments trivLib sessTwo 0 2 1 1 1).originals = sessTwo.originals ∧
    (applyTransform trivLib sessTwo 0 neutralParams).originals = sessTwo.originals ∧
    (applyEnhancement trivLib sessTwo 0 neutralParams).originals = sessTwo.originals ∧
    (applyToAll trivLib sessTwo 1 2 1 1 1).originals = sessTwo.originals ∧
    (resetToOriginal sessTwo 0).originals = sessTwo.originals ∧
    (resetToOriginal sessTwo 0).workings[0]? = sessTwo.originals[0]? :=
  originals_immutable_and_reset trivLib sessTwo 0 neutralParams 1 2 1 1 1
    (by decide) rfl

/-- **C5.** For a valid crop ratio (positive components, nonempty input
height), every successful crop satisfies `cropSpec`: dimensions never exceed
the input's, the output aspect matches the target within one-pixel rounding,
and the crop is centered — the width is cropped around the horizontal center
when the current aspect is wider than the target, the height around the
vertical center otherwise; the `none` sentinel is the identity. -/
theorem crop_image_some_eq (image : Img) (rNum rDen : Nat) :
    crop_image image (some (rNum, rDen)) =
      (if rDen = 0 then Except.error "ZeroDivisionError"
       else if image.height = 0 then Except.error "ZeroDivisionError"
       else if image.height * rNum < image.width * rDen then
         Except.ok (cropRect image ((image.width - image.height * rNum / rDen) / 2) 0
           ((image.width - image.height * rNum / rDen) / 2 + image.height * rNum / rDen)
           image.height)
       else if rNum = 0 then Except.error "ZeroDivisionError"
       else
         Except.ok (cropRect image 0 ((image.height - image.width * rDen / rNum) / 2)
           image.width
           ((image.height - image.width * rDen / rNum) / 2 + image.width * rDen / rNum))) :=
  rfl

/-- **C5.** For a valid crop ratio (positive components, nonempty input
height), every successful crop satisfies `cropSpec`: dimensions never exceed
the input's, the output aspect matches the target within one-pixel rounding,
and the crop is centered — the width is cropped around the horizontal center
when the current aspect is wider than the target, the height around the
vertical center otherwise; the `none` sentinel is the identity. -/
theorem crop_ratio_spec (image : Img) (rNum rDen : Nat) (out : Img)
    (hn : 0 < rNum) (hd : 0 < rDen) (hh : 0 < image.height)
    (hok : crop_image image (some (rNum, rDen)) = Except.ok out) :
    cropSpec image rNum rDen out ∧ crop_image image none = Except.ok image := by
  refine ⟨?_, rfl⟩
  rw [crop_image_some_eq, if_neg (by omega), if_neg (by omega)] at hok
  by_cases hb : image.height * rNum < image.width * rDen
  · rw [if_pos hb] at hok
    obtain ⟨nw, hnw⟩ : ∃ x, image.height * rNum / rDen = x := ⟨_, rfl⟩
    rw [hnw] at hok
    obtain ⟨l, hld⟩ : ∃ x, (image.width - nw) / 2 = x := ⟨_, rfl⟩
    rw [hld] at hok
    injection hok with hok
    subst hok
    obtain ⟨r, hr, hdm⟩ : ∃ r, r < rDen ∧ rDen * nw + r = image.height * rNum :=
      ⟨_, Nat.mod_lt _ hd, by rw [← hnw]; exact Nat.div_add_mod _ _⟩
    clear hnw
    have hb' : rDen * nw < rDen * image.width := by
      have h1 : image.height * rNum < rDen * image.width := by
        rw [Nat.mul_comm rDen image.width]; exact hb
      omega
    have hnww : nw < image.width := Nat.lt_of_mul_lt_mul_left hb'
    have houtw : (cropRect image l 0 (l + nw) image.height).width = nw := by
      show l + nw - l = nw; omega
    have houth : (cropRect image l 0 (l + nw) image.height).height = image.height := by
      show image.height - 0 = image.height; omega
    refine ⟨?_, ?_, ?_, ?_, fun _ => ⟨houth, l, ?_, ?_, ?_⟩, fun hc => absurd hb hc⟩
    · rw [houtw]; omega
    · rw [houth]
    · rw [houtw, houth, Nat.mul_comm nw rDen]; omega
    · rw [houtw, houth, Nat.mul_comm nw rDen]; omega
    · rw [houtw]
    · rw [houtw]; omega
    · rw [houtw]; omega
  · rw [if_neg hb, if_neg (by omega)] at hok
    obtain ⟨nh, hnh⟩ : ∃ x, image.width * rDen / rNum = x := ⟨_, rfl⟩
    rw [hnh] at hok
    obtain ⟨tp, htd⟩ : ∃ x, (image.height - nh) / 2 = x := ⟨_, rfl⟩
    rw [htd] at hok
    injection hok with hok
    subst hok
    obtain ⟨r, hr, hdm⟩ : ∃ r, r < rNum ∧ rNum * nh + r = image.width * rDen :=
      ⟨_, Nat.mod_lt _ hn, by rw [← hnh]; exact Nat.div_add_mod _ _⟩
    clear hnh
    have h2 : rNum * nh ≤ rNum * image.height := by
      have h3 : image.height * rNum = rNum * image.height := Nat.mul_comm _ _
      omega
    have hnhh : nh ≤ image.height := Nat.le_of_mul_le_mul_left h2 hn
    have houtw : (cropRect image 0 tp image.width (tp + nh)).width = image.width := by
      show image.width - 0 = image.width; omega
    have houth : (cropRect image 0 tp image.width (tp + nh)).height = nh := by
      show tp + nh - tp = nh; omega
    refine ⟨?_, ?_, ?_, ?_, fun hc => absurd hc hb, fun _ => ⟨houtw, tp, ?_, ?_, ?_⟩⟩
    · rw [houtw]
    · rw [houth]; omega
    · rw [houtw, houth, Nat.mul_comm nh rNum]; omega
    · rw [houtw, houth, Nat.mul_comm nh rNum]; omega
    · rw [houth]
    · rw [houth]; omega
    · rw [houth]; omega

/-- Witness for `crop_ratio_spec`: center-cropping the concrete 4×2 image to
the square 1:1 ratio yields the middle 2×2 window. -/
theorem crop_ratio_spec_witness :
    cropSpec cimg42 1 1 (Img.mk "RGB" 2 2 [[2, 3], [6, 7]]) ∧
    crop_image cimg42 none = Except.ok cimg42 :=
  crop_ratio_spec cimg42 1 1 (Img.mk "RGB" 2 2 [[2, 3], [6, 7]])
    (by decide) (by decide) (by decide) rfl

/-- **C6 (counterexample).** A degenerate crop is not an error: cropping the
100×1 image to the 1:10 portrait ratio returns `ok` with a zero-area (0×1)
buffer rather than raising. -/
theorem crop_zero_area_returns_ok :
    crop_image cimgWide (some (1, 10)) = Except.ok (Img.mk "RGB" 0 1 [[]]) ∧
    (Img.mk "RGB" 0 1 [[]]).width * (Img.mk "RGB" 0 1 [[]]).height = 0 :=
  ⟨rfl, rfl⟩

/-- **C6 (amended).** `crop_image` performs no explicit validation: a ratio
with zero height component raises (Python's `ZeroDivisionError` from
computing the target aspect), while for positive ratio components on a
nonempty image the crop always succeeds — even when the resulting buffer has
zero area. -/
theorem crop_validation_behaviour (image : Img) (rNum rDen : Nat) :
    crop_image image (some (rNum, 0)) = Except.error "ZeroDivisionError" ∧
    (0 < rNum → 0 < rDen → 0 < image.height →
      ∃ out, crop_image image (some (rNum, rDen)) = Except.ok out) := by
  constructor
  · rfl
  · intro hn hd hh
    rw [crop_image_some_eq, if_neg (by omega), if_neg (by omega)]
    by_cases hb : image.height * rNum < image.width * rDen
    · rw [if_pos hb]; exact ⟨_, rfl⟩
    · rw [if_neg hb, if_neg (by omega)]; exact ⟨_, rfl⟩

/-- Witness for `crop_validation_behaviour` at the concrete 4×2 image. -/
theorem crop_validation_behaviour_witness :
    crop_image cimg42 (some (1, 0)) = Except.error "ZeroDivisionError" ∧
    ∃ out, crop_image cimg42 (some (1, 1)) = Except.ok out :=
  ⟨(crop_validation_behaviour cimg42 1 0).1,
   (crop_validation_behaviour cimg42 1 1).2 (by decide) (by decide) (by decide)⟩

end ImageConverter
